import Mathlib

/-!
Verification development for the toster process-execution subsystem.

Durations and instants are modelled as rational numbers of seconds (`ℚ`);
machine integers are modelled as `Nat`/`Int` with explicit `% 2 ^ w`
where the source truncates.  Functions that can panic (`expect`/`unwrap`)
or diverge (`halt()`) return a `RunOutcome`.
-/

namespace Toster

/-- `ExecutionMetrics` from `src/test_errors.rs`: optional wall-clock time
(seconds, as `ℚ`) and optional peak memory in kibibytes. -/
structure ExecutionMetrics where
  time : Option ℚ
  memory_kibibytes : Option Nat
  deriving Repr, DecidableEq

/-- `ExecutionMetrics::NONE` from `src/test_errors.rs`. -/
def ExecutionMetrics.NONE : ExecutionMetrics :=
  { time := none, memory_kibibytes := none }

/-- `ExecutionError` from `src/test_errors.rs`. -/
inductive ExecutionError where
  | TimedOut
  | MemoryLimitExceeded
  | RuntimeError (msg : String)
  | Sio2jailError (msg : String)
  | PipeError
  | OutputNotUtf8
  | IncorrectCheckerFormat (msg : String)
  deriving Repr, DecidableEq

/-- Rust `Result<T, E>`. -/
inductive Result (α ε : Type) where
  | ok (val : α)
  | error (err : ε)
  deriving Repr, DecidableEq

/-- `std::process::ExitStatus` on unix, as observed through `code()` /
`signal()`: either a normal exit with a code, or termination by a signal. -/
inductive ExitStatusU where
  | exited (code : Int)
  | signalled (signal : Int)
  deriving Repr, DecidableEq

/-- Outcome of running a piece of Rust code that may panic (`expect` /
`unwrap`), diverge via `halt()`, or return normally. -/
inductive RunOutcome (α : Type) where
  | panicked (msg : String)
  | halted
  | returned (val : α)
  deriving Repr, DecidableEq

/-- Display of a unix `ExitStatus` (used in `RuntimeError` messages):
`"exit status: N"` for normal exits, `"signal: N"` for signals. -/
def exitStatusDisplay : ExitStatusU → String
  | .exited c => "exit status: " ++ toString c
  | .signalled s => "signal: " ++ toString s

/-- `halt()` from `src/generic_utils.rs` sleeps for `u64::MAX` seconds;
this is the number of seconds slept. -/
def haltSleepSeconds : Nat := 18446744073709551615

/-- A single-character string holding an ASCII apostrophe (codepoint 39). -/
def squote : String := String.mk [Char.ofNat 39]

/-- Auxiliary for `split_whitespace`: splits a character list on whitespace,
skipping empty chunks, accumulating the current chunk in reverse. -/
def splitWSAux : List Char → List Char → List (List Char)
  | [], acc => if acc = [] then [] else [acc.reverse]
  | c :: rest, acc =>
    if c.isWhitespace then
      if acc = [] then splitWSAux rest []
      else acc.reverse :: splitWSAux rest []
    else splitWSAux rest (c :: acc)

/-- Model of Rust `str::split_whitespace`: whitespace-delimited chunks with
empty chunks skipped. -/
def split_whitespace (s : String) : List String :=
  (splitWSAux s.data []).map String.mk

/-- ASCII decimal digit test. -/
def isAsciiDigit (c : Char) : Bool := 48 ≤ c.toNat && c.toNat ≤ 57

/-- Value of a list of ASCII digits read in base 10. -/
def digitsToNat (cs : List Char) : Nat :=
  cs.foldl (fun a c => 10 * a + (c.toNat - 48)) 0

/-- Strips one leading ASCII plus sign (codepoint 43). -/
def stripPlus : List Char → List Char
  | c :: rest => if c = Char.ofNat 43 then rest else c :: rest
  | [] => []

/-- Model of Rust `str::parse::<u64>`: optional leading plus, then one or
more ASCII digits, value below `2 ^ 64`; `none` models a parse error. -/
def parseU64 (s : String) : Option Nat :=
  let cs := stripPlus s.data
  if cs.isEmpty then none
  else if cs.all isAsciiDigit then
    let n := digitsToNat cs
    if n < 2 ^ 64 then some n else none
  else none

/-- A parsed decimal floating-point literal: `negative` records a leading
minus sign, `intDigits` the value of the integer digits, `fracDigits` the
value of the fraction digits, `fracLen` the number of fraction digits. -/
structure F64Lit where
  negative : Bool
  intDigits : Nat
  fracDigits : Nat
  fracLen : Nat
  deriving Repr, DecidableEq

/-- The rational value denoted by a parsed decimal literal. -/
def F64Lit.toRat (l : F64Lit) : ℚ :=
  (if l.negative then -1 else 1) *
    ((l.intDigits : ℚ) + (l.fracDigits : ℚ) / 10 ^ l.fracLen)

/-- `true` exactly when the literal denotes a strictly negative value:
a minus sign in front of a nonzero magnitude. -/
def F64Lit.isNeg (l : F64Lit) : Bool :=
  l.negative && (l.intDigits ≠ 0 || l.fracDigits ≠ 0)

/-- Strips one leading ASCII minus (codepoint 45) or plus (codepoint 43),
returning `true` when a minus was present. -/
def stripSign : List Char → Bool × List Char
  | c :: rest =>
    if c = Char.ofNat 45 then (true, rest)
    else if c = Char.ofNat 43 then (false, rest)
    else (false, c :: rest)
  | [] => (false, [])

/-- Model of Rust `str::parse::<f64>` restricted to plain decimal literals
(optional sign, digits, optional single point with fraction digits, at
least one digit overall), read exactly; `none` models a parse error.
Exponent, `inf` and `nan` forms are not modelled: the supervisor's
report never uses them. -/
def parseF64 (s : String) : Option F64Lit :=
  let (sign, cs) := stripSign s.data
  let intPart := cs.takeWhile (fun c => c ≠ Char.ofNat 46)
  let rest := cs.dropWhile (fun c => c ≠ Char.ofNat 46)
  match rest with
  | [] =>
    if intPart.isEmpty then none
    else if intPart.all isAsciiDigit then some ⟨sign, digitsToNat intPart, 0, 0⟩
    else none
  | _ :: frac =>
    if intPart.isEmpty && frac.isEmpty then none
    else if intPart.all isAsciiDigit && frac.all isAsciiDigit then
      some ⟨sign, digitsToNat intPart, digitsToNat frac, frac.length⟩
    else none

/-- Auxiliary for `rustLines`: splits a character list on `\n`
(codepoint 10), keeping empty chunks. -/
def linesAux : List Char → List Char → List (List Char)
  | [], acc => [acc.reverse]
  | c :: rest, acc =>
    if c = Char.ofNat 10 then acc.reverse :: linesAux rest []
    else linesAux rest (c :: acc)

/-- Removes one trailing `\r` (codepoint 13) if present. -/
def stripCR (l : List Char) : List Char :=
  if l.getLast? = some (Char.ofNat 13) then l.dropLast else l

/-- Model of Rust `str::lines`: split on `\n`, dropping a final empty line
and stripping a trailing `\r` from each line. -/
def rustLines (s : String) : List String :=
  let parts := linesAux s.data []
  let parts := if parts.getLast? = some [] then parts.dropLast else parts
  (parts.map stripCR).map String.mk

/-- The exact stderr signature of a `std::bad_alloc` allocation failure
recognized in `Sio2jailExecutor::test_to_stdio`
(`src/executor/sio2jail.rs`, line 138). -/
def badAllocMessage : String :=
  "terminate called after throwing an instance of " ++ squote ++ "std::bad_alloc" ++ squote
    ++ "\n  what():  std::bad_alloc\n"

namespace SimpleExecutor

/-- `SimpleExecutor::map_status_code` from `src/executor/simple.rs`:
exit code 0 maps to `Ok(())`; a non-zero exit code maps to a
`RuntimeError` naming the code; termination by signal 2 calls `halt()`
(modelled as `.halted`); any other signal maps to a `RuntimeError`
containing the status display. -/
def map_status_code (status : ExitStatusU) : RunOutcome (Result Unit ExecutionError) :=
  match status with
  | .exited 0 => .returned (.ok ())
  | .exited exit_code =>
      .returned (.error (.RuntimeError
        ("- the program returned a non-zero return code: " ++ toString exit_code)))
  | .signalled s =>
      if s = 2 then
        .halted
      else
        .returned (.error (.RuntimeError
          ("- the process was terminated with the following error:\n" ++
            exitStatusDisplay (.signalled s))))

/-- `Duration::new(0, nanos as u32)`: the truncation of `nanos` to `u32`
interpreted as nanoseconds, in seconds. -/
def durationFromTruncatedNanos (nanos : Nat) : ℚ :=
  ((nanos % 2 ^ 32 : Nat) : ℚ) / 1000000000

/-- `SimpleExecutor::test_to_stdio` from `src/executor/simple.rs` as it
stands in the source: the original wait-and-classify implementation is
commented out, and the function instead calls the experimental
`run_sio2jail` (whose perf-counter reading we model as the parameter
`instructions_used`), fabricates a time metric from half the instruction
count, and always returns `Ok(())` without inspecting the child's exit
status. -/
def test_to_stdio (instructions_used : Nat) :
    ExecutionMetrics × Result Unit ExecutionError :=
  ({ time := some (durationFromTruncatedNanos (instructions_used / 2)),
     memory_kibibytes := none },
   .ok ())

end SimpleExecutor

namespace Sio2jailExecutor

/-- Result of `Sio2jailExecutor::run_sio2jail` (`src/executor/sio2jail.rs`):
either the supervisor process outlived the wall-clock timeout, or it
terminated with an exit status, a captured stderr, and the structured
report read back from file descriptor 3. -/
inductive RunResult where
  | timedOut
  | output (status : ExitStatusU) (stderr : String) (sio2jail_output : String)
  deriving Repr, DecidableEq

/-- `Sio2jailExecutor::test_to_stdio` from `src/executor/sio2jail.rs`,
lines 126-182, as a function of the configured memory limit (kibibytes),
timeout (seconds) and the outcome of `run_sio2jail`: classifies stderr
(allocation-failure signature, other non-empty text), then parses the
whitespace-delimited report (length check, field 2 as milliseconds via
`f64`, field 4 as kibibytes via `u64`, panicking via `expect` when a
field does not parse), checks the supervisor's own exit status, and maps
the status token to a verdict. -/
def test_to_stdio (memory_limit : Nat) (timeout : ℚ) (run : RunResult) :
    RunOutcome (ExecutionMetrics × Result Unit ExecutionError) :=
  match run with
  | .timedOut =>
      .returned ({ time := some timeout, memory_kibibytes := none }, .error .TimedOut)
  | .output status stderr out =>
    if stderr ≠ "" then
      if stderr = badAllocMessage then
        .returned ({ time := none, memory_kibibytes := some memory_limit },
          .error .MemoryLimitExceeded)
      else
        .returned (ExecutionMetrics.NONE, .error (.Sio2jailError stderr))
    else
      let split := split_whitespace out
      if split.length < 6 then
        .returned (ExecutionMetrics.NONE,
          .error (.Sio2jailError ("The sio2jail output is too short: " ++ out)))
      else
        match parseF64 (split.getD 2 "") with
        | none => .panicked "Sio2jail returned an invalid runtime in the output"
        | some ms =>
          if ms.isNeg then
            .panicked "can not convert float seconds to Duration: value is negative"
          else
            match parseU64 (split.getD 4 "") with
            | none => .panicked "Sio2jail returned invalid memory usage in the output"
            | some memory_kibibytes =>
              let sio2jail_status := split.getD 0 ""
              let metrics : ExecutionMetrics :=
                { time := some (ms.toRat / 1000), memory_kibibytes := some memory_kibibytes }
              match status with
              | .signalled s =>
                if s = 2 then .halted
                else .returned (metrics, .error (.RuntimeError
                  ("- the process was terminated with the following error:\n" ++
                    exitStatusDisplay status)))
              | .exited 0 =>
                .returned (metrics,
                  if sio2jail_status = "OK" then .ok ()
                  else if sio2jail_status = "RE" ∨ sio2jail_status = "RV" then
                    .error (.RuntimeError
                      (match (rustLines out).get? 1 with
                       | some message => "- " ++ message
                       | none => ""))
                  else if sio2jail_status = "TLE" then .error .TimedOut
                  else if sio2jail_status = "MLE" then .error .MemoryLimitExceeded
                  else if sio2jail_status = "OLE" then
                    .error (.RuntimeError "- output limit exceeded")
                  else
                    .error (.Sio2jailError
                      ("Sio2jail returned an invalid status in the output: " ++
                        sio2jail_status)))
              | .exited exit_code =>
                .returned (metrics, .error (.Sio2jailError
                  ("Sio2jail returned an invalid status code: " ++ toString exit_code)))

end Sio2jailExecutor

namespace Flag

/-- `Flag` (`src/flag.rs`) holds an `AtomicBool`, a `Mutex<bool>` and a
`Condvar`; `raise` writes `true` to both booleans and notifies, and no
operation ever writes `false` after `new()`, so the observable state is a
single `Bool`.  `raise` as a state transition. -/
def raise (_s : Bool) : Bool := true

/-- `Flag::was_set`: non-blocking read of the flag. -/
def was_set (s : Bool) : Bool := s

/-- Model of `Flag::wait_with_timeout` (`src/flag.rs`, lines 39-47): given
the flag state at the call, the timeout duration (seconds) and the delay
until `raise()` is next called (`none` = never), returns the time spent
blocked and the `timed_out()` value of the returned `WaitTimeoutResult`.
A set flag wakes the waiter immediately; a raise during the wait wakes it
at that moment; otherwise the full duration elapses and the result is
timed out. -/
def wait_with_timeout (s : Bool) (duration : ℚ) (raiseAfter : Option ℚ) : ℚ × Bool :=
  if s then (0, false)
  else
    match raiseAfter with
    | some t => if t ≤ duration then (t, false) else (duration, true)
    | none => (duration, true)

/-- Model of `Flag::wait` (`src/flag.rs`, lines 31-37): blocks in
`Condvar::wait_while` until the mutex-guarded bool is true.  Given the
flag state at the call and the delay until `raise()` is next called
(`none` = never), returns the time spent blocked, `none` when the thread
stays blocked forever because the flag is never raised. -/
def wait (s : Bool) (raiseAfter : Option ℚ) : Option ℚ :=
  if s then some 0
  else
    match raiseAfter with
    | some t => some t
    | none => none

/-- The operations callable on a `Flag`. -/
inductive Op where
  | raiseCall
  | wasSetCall
  | waitCall (duration : ℚ) (raiseAfter : Option ℚ)
  deriving Repr, DecidableEq

/-- State transition of one `Flag` operation: only `raise` writes the
flag; reads and waits leave it unchanged. -/
def step (s : Bool) : Op → Bool
  | .raiseCall => raise s
  | .wasSetCall => s
  | .waitCall _ _ => s

/-- State of the flag after a sequence of operations. -/
def applyOps (s : Bool) (ops : List Op) : Bool :=
  ops.foldl step s

end Flag

namespace Watchdog

/-- Result of one iteration of the Watchdog background loop for a dequeued
job: how long the thread blocked in `wait_with_timeout` (`none` = it did
not wait at all) and whether it attempted to kill the handle. -/
structure StepResult where
  waited : Option ℚ
  killAttempted : Bool
  deriving Repr, DecidableEq

/-- The time `Flag::wait_with_timeout` keeps the watchdog blocked, as a
function of the absolute current time, the wait duration, and the absolute
time at which the kill flag is raised (`none` = never): the wait ends at
the deadline or at the raise, whichever comes first. -/
def flagWaitSpan (now duration : ℚ) (flagRaiseTime : Option ℚ) : ℚ :=
  match flagRaiseTime with
  | none => duration
  | some t => max 0 (min duration (t - now))

/-- One iteration of the Watchdog background loop from `Watchdog::start`
(`src/executor/common.rs`, lines 60-75): if the dequeued handle
`is_useless()`, skip it (`continue`) with no wait and no kill; otherwise
compute `timeout.checked_duration_since(now)` (`none` when the deadline
has already passed), block in `kill_flag.wait_with_timeout` for the
remaining time when there is some, and then `try_kill` the handle. -/
def watchdogStep (isUseless : Bool) (now deadline : ℚ) (flagRaiseTime : Option ℚ) :
    StepResult :=
  if isUseless then { waited := none, killAttempted := false }
  else
    let remaining := if now ≤ deadline then some (deadline - now) else none
    match remaining with
    | none => { waited := none, killAttempted := true }
    | some r => { waited := some (flagWaitSpan now r flagRaiseTime), killAttempted := true }

/-- `Watchdog::add_handle` (`src/executor/common.rs`, lines 86-89) computes
the job's absolute deadline as `Instant::now() + self.timeout_duration`. -/
def add_handle_deadline (now timeout_duration : ℚ) : ℚ :=
  now + timeout_duration

/-- The deadlines of the jobs of a FIFO queue, listed in enqueue order:
job `i` was registered at `times[i]` and all jobs share the Watchdog's one
`timeout_duration`. -/
def queueDeadlines (times : List ℚ) (timeout_duration : ℚ) : List ℚ :=
  times.map (fun t => add_handle_deadline t timeout_duration)

end Watchdog

/-- OS-level state of a spawned child process in the unix model
(the contract documented in `src/owned_child/unix.rs`): still running,
terminated but not yet reaped (a zombie: still waitable, kill succeeds
but has no effect), or reaped (the PID is released and kill reports
ESRCH). -/
inductive ProcState where
  | running
  | exitedNotReaped
  | reaped
  deriving Repr, DecidableEq

/-- The errno relevant to killing one's own child: ESRCH, "no such
process", returned once the child has been reaped. -/
inductive Errno where
  | ESRCH
  deriving Repr, DecidableEq

/-- OS model of `signal::kill(pid, SIGKILL)` for a PID owned as a child:
running → terminates it; zombie → success with no effect; reaped → ESRCH. -/
def osKill : ProcState → Result Unit Errno × ProcState
  | .running => (.ok (), .exitedNotReaped)
  | .exitedNotReaped => (.ok (), .exitedNotReaped)
  | .reaped => (.error .ESRCH, .reaped)

/-- The file-level `try_kill` of `src/owned_child/unix.rs` (lines 115-124):
`kill` with an `ESRCH` error mapped to `Ok(())`. -/
def try_kill_pid (p : ProcState) : Result Unit Errno × ProcState :=
  match osKill p with
  | (.error .ESRCH, q) => (.ok (), q)
  | r => r

/-- Shared state behind a unix `ChildHandle`: whether the mutex-guarded
PID slot still holds the PID (`Option::take` in the drop handler empties
it), and the OS state of the process. -/
structure HandleState where
  pidSlot : Bool
  proc : ProcState
  deriving Repr, DecidableEq

/-- `ChildHandle::try_kill` from `src/owned_child/unix.rs` (lines 24-34):
under the lock, kill the PID only while the slot still holds it; an empty
slot is a successful no-op. -/
def ChildHandle.try_kill (s : HandleState) : Result Unit Errno × HandleState :=
  if s.pidSlot then
    match try_kill_pid s.proc with
    | (r, p) => (r, { s with proc := p })
  else (.ok (), s)

/-- Process-management events visible to the OS. -/
inductive ChildEvent where
  | kill
  | reap
  deriving Repr, DecidableEq

/-- OS model of blocking `waitpid(pid, None)`: blocks until the child
terminates, then reaps it; fails only when the child was already reaped. -/
def waitpidReap : ProcState → Option ProcState
  | .running => some .reaped
  | .exitedNotReaped => some .reaped
  | .reaped => none

/-- OS model of `waitid(pid, WEXITED | WSTOPPED | WNOWAIT)`: blocks until
the child terminates and leaves it waitable (no reap); fails only when the
child was already reaped. -/
def waitidNoWait : ProcState → Option ProcState
  | .running => some .exitedNotReaped
  | .exitedNotReaped => some .exitedNotReaped
  | .reaped => none

/-- `impl Drop for OwnedChild` from `src/owned_child/unix.rs` (lines
94-110): take the PID out of the shared slot (`expect`ing it to still be
there), `try_kill` it tolerating ESRCH (`unwrap`ping the result), then
reap it with `waitpid` (`unwrap`ping).  Returns the final state and the
trace of OS events. -/
def OwnedChild.dropChild (s : HandleState) : RunOutcome (HandleState × List ChildEvent) :=
  if s.pidSlot then
    match try_kill_pid s.proc with
    | (.error _, _) => .panicked "called unwrap on an Err value"
    | (.ok _, p) =>
      match waitpidReap p with
      | some p2 => .returned ({ pidSlot := false, proc := p2 }, [.kill, .reap])
      | none => .panicked "called unwrap on an Err value"
  else .panicked "handle.pid should not be None until OwnedPid drops"

/-- `OwnedChild::wait` from `src/owned_child/unix.rs` (lines 77-87)
together with the drop of the consumed `OwnedChild` that ends it: observe
the exit status with `waitid(.., WNOWAIT)` (no reap), then the destructor
kills and reaps. -/
def OwnedChild.wait (s : HandleState) : RunOutcome (HandleState × List ChildEvent) :=
  if s.pidSlot then
    match waitidNoWait s.proc with
    | none => .panicked "waitid failed"
    | some p => OwnedChild.dropChild { s with proc := p }
  else .panicked "handle.pid should not be None until OwnedPid drops"

/-- C1: The claim states the direct executor returns `Ok(())` on exit code 0
and `Err(RuntimeError(..))` on a non-zero exit code.  The classification
function `map_status_code` does behave that way, but the executor entry point
`test_to_stdio` in the current source never consults the exit status: it
returns `Ok(())` for every execution (its intended body is commented out),
so a subject exiting with code 7 is reported as a success. -/
theorem simple_test_to_stdio_ignores_exit_status :
    (∀ instructions_used : Nat,
      (SimpleExecutor.test_to_stdio instructions_used).2 = .ok ()) ∧
    SimpleExecutor.map_status_code (.exited 7) =
      .returned (.error (.RuntimeError
        ("- the program returned a non-zero return code: 7"))) ∧
    SimpleExecutor.map_status_code (.exited 0) = .returned (.ok ()) := by
  refine ⟨fun _ => rfl, ?_, rfl⟩
  rfl

/-- C10: For a subject process terminated by signal 2 (SIGINT), the direct
executor's status classification produces no verdict at all: it calls
`halt()`, which sleeps the calling thread for `u64::MAX` seconds. -/
theorem map_status_code_halts_on_signal_two :
    SimpleExecutor.map_status_code (.signalled 2) = .halted ∧
    haltSleepSeconds = 2 ^ 64 - 1 := by
  constructor
  · rfl
  · rfl

/-- Helper: on the happy path (empty stderr, supervisor exit code 0, at
least six report fields, fields 2 and 4 parsing, nonnegative time) the
sio2jail executor returns the parsed metrics together with the verdict
selected by the status token. -/
theorem sio2jail_happy_path (memory_limit : Nat) (timeout : ℚ) (out : String)
    (ms : F64Lit) (mem : Nat)
    (h6 : ¬ (split_whitespace out).length < 6)
    (hms : parseF64 ((split_whitespace out).getD 2 "") = some ms)
    (hneg : ms.isNeg = false)
    (hmem : parseU64 ((split_whitespace out).getD 4 "") = some mem) :
    Sio2jailExecutor.test_to_stdio memory_limit timeout (.output (.exited 0) "" out) =
      .returned ({ time := some (ms.toRat / 1000), memory_kibibytes := some mem },
        if (split_whitespace out).getD 0 "" = "OK" then .ok ()
        else if (split_whitespace out).getD 0 "" = "RE" ∨
            (split_whitespace out).getD 0 "" = "RV" then
          .error (.RuntimeError
            (match (rustLines out).get? 1 with
             | some message => "- " ++ message
             | none => ""))
        else if (split_whitespace out).getD 0 "" = "TLE" then .error .TimedOut
        else if (split_whitespace out).getD 0 "" = "MLE" then .error .MemoryLimitExceeded
        else if (split_whitespace out).getD 0 "" = "OLE" then
          .error (.RuntimeError "- output limit exceeded")
        else
          .error (.Sio2jailError
            ("Sio2jail returned an invalid status in the output: " ++
              (split_whitespace out).getD 0 ""))) := by
  simp only [Sio2jailExecutor.test_to_stdio, ne_eq, not_true_eq_false, if_false,
    if_neg h6, hms, hneg, Bool.false_eq_true, hmem]

/-- C2 (counterexample): for an unrecognized status token, the claim says
the `SandboxError` carries the raw report; in fact the message names only
the offending token, and the raw report (here `"XX 0 5 0 7 0"`) is not
contained in it. -/
theorem sio2jail_unknown_status_message_omits_report :
    Sio2jailExecutor.test_to_stdio 0 1 (.output (.exited 0) "" "XX 0 5 0 7 0") =
      .returned
        ({ time := some ((F64Lit.mk false 5 0 0).toRat / 1000), memory_kibibytes := some 7 },
          .error (.Sio2jailError "Sio2jail returned an invalid status in the output: XX")) ∧
    ¬ List.IsInfix ("XX 0 5 0 7 0").data
        ("Sio2jail returned an invalid status in the output: XX").data := by
  constructor
  · rfl
  · decide

/-- C2 (amended): with empty stderr, supervisor exit code 0, a report of
at least six whitespace-separated fields whose field 2 parses as a
nonnegative number of milliseconds into `metrics.time` and whose field 4
parses as kibibytes into `metrics.memory_kibibytes`, the status token maps
`OK` to success, `RE`/`RV` to a `RuntimeError` quoting the report's second
line, `TLE` to `TimedOut`, `MLE` to `MemoryLimitExceeded`, `OLE` to a
`RuntimeError` reading "- output limit exceeded", and any other token to a
`Sio2jailError` naming that token (not the full raw report). -/
theorem sio2jail_report_status_token_mapping (memory_limit : Nat) (timeout : ℚ)
    (out : String) (ms : F64Lit) (mem : Nat)
    (h6 : ¬ (split_whitespace out).length < 6)
    (hms : parseF64 ((split_whitespace out).getD 2 "") = some ms)
    (hneg : ms.isNeg = false)
    (hmem : parseU64 ((split_whitespace out).getD 4 "") = some mem) :
    ((split_whitespace out).getD 0 "" = "OK" →
      Sio2jailExecutor.test_to_stdio memory_limit timeout (.output (.exited 0) "" out) =
        .returned ({ time := some (ms.toRat / 1000), memory_kibibytes := some mem },
          .ok ())) ∧
    ((split_whitespace out).getD 0 "" = "RE" ∨ (split_whitespace out).getD 0 "" = "RV" →
      Sio2jailExecutor.test_to_stdio memory_limit timeout (.output (.exited 0) "" out) =
        .returned ({ time := some (ms.toRat / 1000), memory_kibibytes := some mem },
          .error (.RuntimeError
            (match (rustLines out).get? 1 with
             | some message => "- " ++ message
             | none => "")))) ∧
    ((split_whitespace out).getD 0 "" = "TLE" →
      Sio2jailExecutor.test_to_stdio memory_limit timeout (.output (.exited 0) "" out) =
        .returned ({ time := some (ms.toRat / 1000), memory_kibibytes := some mem },
          .error .TimedOut)) ∧
    ((split_whitespace out).getD 0 "" = "MLE" →
      Sio2jailExecutor.test_to_stdio memory_limit timeout (.output (.exited 0) "" out) =
        .returned ({ time := some (ms.toRat / 1000), memory_kibibytes := some mem },
          .error .MemoryLimitExceeded)) ∧
    ((split_whitespace out).getD 0 "" = "OLE" →
      Sio2jailExecutor.test_to_stdio memory_limit timeout (.output (.exited 0) "" out) =
        .returned ({ time := some (ms.toRat / 1000), memory_kibibytes := some mem },
          .error (.RuntimeError "- output limit exceeded"))) ∧
    ((split_whitespace out).getD 0 "" ≠ "OK" → (split_whitespace out).getD 0 "" ≠ "RE" →
      (split_whitespace out).getD 0 "" ≠ "RV" → (split_whitespace out).getD 0 "" ≠ "TLE" →
      (split_whitespace out).getD 0 "" ≠ "MLE" → (split_whitespace out).getD 0 "" ≠ "OLE" →
      Sio2jailExecutor.test_to_stdio memory_limit timeout (.output (.exited 0) "" out) =
        .returned ({ time := some (ms.toRat / 1000), memory_kibibytes := some mem },
          .error (.Sio2jailError
            ("Sio2jail returned an invalid status in the output: " ++
              (split_whitespace out).getD 0 "")))) := by
  have H := sio2jail_happy_path memory_limit timeout out ms mem h6 hms hneg hmem
  refine ⟨?_, ?_, ?_, ?_, ?_, ?_⟩
  · intro h
    rw [H, if_pos h]
  · intro h
    have hOK : ¬ (split_whitespace out).getD 0 "" = "OK" := by
      rcases h with h | h <;> rw [h] <;> decide
    rw [H, if_neg hOK, if_pos h]
  · intro h
    rw [H, if_neg (by rw [h]; decide), if_neg (by rw [h]; decide), if_pos h]
  · intro h
    rw [H, if_neg (by rw [h]; decide), if_neg (by rw [h]; decide),
      if_neg (by rw [h]; decide), if_pos h]
  · intro h
    rw [H, if_neg (by rw [h]; decide), if_neg (by rw [h]; decide),
      if_neg (by rw [h]; decide), if_neg (by rw [h]; decide), if_pos h]
  · intro h1 h2 h3 h4 h5 hx
    rw [H, if_neg h1, if_neg (by tauto), if_neg h4, if_neg h5, if_neg hx]

/-- C2 (witness): the amended mapping evaluated on the concrete report
`"OK 0 100 0 256 0"`. -/
theorem sio2jail_report_status_token_mapping_witness :
    Sio2jailExecutor.test_to_stdio 64000 10 (.output (.exited 0) "" "OK 0 100 0 256 0") =
      .returned
        ({ time := some ((F64Lit.mk false 100 0 0).toRat / 1000), memory_kibibytes := some 256 },
          .ok ()) :=
  (sio2jail_report_status_token_mapping 64000 10 "OK 0 100 0 256 0"
    (F64Lit.mk false 100 0 0) 256 (by decide) (by decide) rfl (by decide)).1 rfl

/-- C3 (counterexample): the claim says every malformed report yields
`Err(SandboxError)` without panicking; but a report whose field 2 is not
numeric makes the parser panic through `expect`. -/
theorem sio2jail_nonnumeric_field_panics :
    Sio2jailExecutor.test_to_stdio 0 1 (.output (.exited 0) "" "OK 0 abc 0 256 0") =
      .panicked "Sio2jail returned an invalid runtime in the output" := by
  rfl

/-- C3 (amended): a report with fewer than six whitespace-separated fields
yields `Err(Sio2jailError)` (no panic) whatever the supervisor's exit
status; but a report with at least six fields whose field 2 does not parse
as a number panics via `expect`, as does one whose field 2 parses but
whose field 4 does not parse as a `u64`. -/
theorem sio2jail_short_report_error_nonnumeric_panics (memory_limit : Nat) (timeout : ℚ)
    (status : ExitStatusU) (out : String) :
    ((split_whitespace out).length < 6 →
      Sio2jailExecutor.test_to_stdio memory_limit timeout (.output status "" out) =
        .returned (ExecutionMetrics.NONE,
          .error (.Sio2jailError ("The sio2jail output is too short: " ++ out)))) ∧
    (¬ (split_whitespace out).length < 6 →
      parseF64 ((split_whitespace out).getD 2 "") = none →
      Sio2jailExecutor.test_to_stdio memory_limit timeout (.output status "" out) =
        .panicked "Sio2jail returned an invalid runtime in the output") ∧
    (∀ ms : F64Lit, ¬ (split_whitespace out).length < 6 →
      parseF64 ((split_whitespace out).getD 2 "") = some ms → ms.isNeg = false →
      parseU64 ((split_whitespace out).getD 4 "") = none →
      Sio2jailExecutor.test_to_stdio memory_limit timeout (.output status "" out) =
        .panicked "Sio2jail returned invalid memory usage in the output") := by
  refine ⟨?_, ?_, ?_⟩
  · intro h
    simp only [Sio2jailExecutor.test_to_stdio, ne_eq, not_true_eq_false, if_false, if_pos h]
  · intro h6 hbad
    simp only [Sio2jailExecutor.test_to_stdio, ne_eq, not_true_eq_false, if_false,
      if_neg h6, hbad]
  · intro ms h6 hms hneg hmem
    simp only [Sio2jailExecutor.test_to_stdio, ne_eq, not_true_eq_false, if_false,
      if_neg h6, hms, hneg, Bool.false_eq_true, hmem]

/-- C3 (witness): the amended behavior evaluated on the concrete short
report `"OK 0 100"`. -/
theorem sio2jail_short_report_error_nonnumeric_panics_witness :
    Sio2jailExecutor.test_to_stdio 0 1 (.output (.exited 0) "" "OK 0 100") =
      .returned (ExecutionMetrics.NONE,
        .error (.Sio2jailError "The sio2jail output is too short: OK 0 100")) :=
  (sio2jail_short_report_error_nonnumeric_panics 0 1 (.exited 0) "OK 0 100").1 (by decide)

/-- C7: a supervisor stderr equal to the `std::bad_alloc` signature is
reinterpreted as `MemoryLimitExceeded` with `memory_kibibytes` set to the
configured limit; any other non-empty stderr is surfaced as a
`Sio2jailError` carrying that stderr text verbatim. -/
theorem sio2jail_stderr_classification (memory_limit : Nat) (timeout : ℚ)
    (status : ExitStatusU) (stderr out : String) :
    (stderr = badAllocMessage →
      Sio2jailExecutor.test_to_stdio memory_limit timeout (.output status stderr out) =
        .returned ({ time := none, memory_kibibytes := some memory_limit },
          .error .MemoryLimitExceeded)) ∧
    (stderr ≠ "" → stderr ≠ badAllocMessage →
      Sio2jailExecutor.test_to_stdio memory_limit timeout (.output status stderr out) =
        .returned (ExecutionMetrics.NONE, .error (.Sio2jailError stderr))) := by
  constructor
  · intro h
    subst h
    simp only [Sio2jailExecutor.test_to_stdio, ne_eq, if_pos rfl]
    rw [if_pos (show ¬ badAllocMessage = "" by decide), if_pos trivial]
  · intro h1 h2
    simp only [Sio2jailExecutor.test_to_stdio, ne_eq, if_pos h1, if_neg h2]

/-- C7 (witness): the stderr classification evaluated at the concrete
allocation-failure signature and at a concrete other diagnostic. -/
theorem sio2jail_stderr_classification_witness :
    Sio2jailExecutor.test_to_stdio 256 1 (.output (.exited 0) badAllocMessage "") =
      .returned ({ time := none, memory_kibibytes := some 256 },
        .error .MemoryLimitExceeded) ∧
    Sio2jailExecutor.test_to_stdio 256 1 (.output (.exited 0) "mount failed" "") =
      .returned (ExecutionMetrics.NONE, .error (.Sio2jailError "mount failed")) :=
  ⟨(sio2jail_stderr_classification 256 1 (.exited 0) badAllocMessage "").1 rfl,
   (sio2jail_stderr_classification 256 1 (.exited 0) "mount failed" "").2
     (by decide) (by decide)⟩

/-- Helper: clamping arithmetic for the watchdog wake-up time. -/
theorem add_clamped_span (a b c : ℚ) :
    a + max 0 (min (b - a) (c - a)) = max a (min b c) := by
  simp only [max_def, min_def]
  split_ifs <;> linarith

/-- C4: for every dequeued watchdog job: a handle that `is_useless()` at
dequeue is skipped with no timed wait and no kill attempt; otherwise the
thread blocks exactly until the job's deadline or the kill-flag raise,
whichever comes first (not at all when the deadline has already passed),
and then attempts to kill the handle regardless of which condition
fired. -/
theorem watchdog_job_processing (now deadline : ℚ) (flagRaiseTime : Option ℚ) :
    Watchdog.watchdogStep true now deadline flagRaiseTime =
      { waited := none, killAttempted := false } ∧
    (Watchdog.watchdogStep false now deadline flagRaiseTime).killAttempted = true ∧
    now + ((Watchdog.watchdogStep false now deadline flagRaiseTime).waited.getD 0) =
      max now (min deadline (flagRaiseTime.getD deadline)) := by
  refine ⟨rfl, ?_, ?_⟩
  · unfold Watchdog.watchdogStep
    by_cases h : now ≤ deadline <;> simp [h]
  · unfold Watchdog.watchdogStep Watchdog.flagWaitSpan
    rcases flagRaiseTime with _ | t <;> by_cases h : now ≤ deadline
    · simp only [Bool.false_eq_true, if_false, if_pos h, Option.getD_some, Option.getD_none]
      rw [min_self, max_eq_right h]
      ring
    · simp only [Bool.false_eq_true, if_false, if_neg h, Option.getD_none, add_zero]
      rw [min_self, max_eq_left (le_of_not_le h)]
    · simp only [Bool.false_eq_true, if_false, if_pos h, Option.getD_some]
      exact add_clamped_span now deadline t
    · simp only [Bool.false_eq_true, if_false, if_neg h, Option.getD_none, Option.getD_some,
        add_zero]
      rw [max_eq_left (le_trans (min_le_left _ _) (le_of_not_le h))]

/-- C5: for a spawned unix `OwnedChild` whose process has not yet been
reaped, both usage paths — dropping it without waiting, and an explicit
`wait()` (which consumes it and ends in the same destructor) — reap the
process exactly once; the destructor attempts a kill first and then
reaps, and it does not panic even when the process has already
terminated. -/
theorem owned_child_exactly_one_reap (p : ProcState) (h : p ≠ ProcState.reaped) :
    OwnedChild.dropChild { pidSlot := true, proc := p } =
      .returned ({ pidSlot := false, proc := .reaped }, [.kill, .reap]) ∧
    OwnedChild.wait { pidSlot := true, proc := p } =
      .returned ({ pidSlot := false, proc := .reaped }, [.kill, .reap]) ∧
    [ChildEvent.kill, ChildEvent.reap].count ChildEvent.reap = 1 := by
  cases p
  · exact ⟨rfl, rfl, rfl⟩
  · exact ⟨rfl, rfl, rfl⟩
  · exact absurd rfl h

/-- C5 (witness): the lifecycle evaluated for a running process. -/
theorem owned_child_exactly_one_reap_witness :
    OwnedChild.dropChild { pidSlot := true, proc := .running } =
      .returned ({ pidSlot := false, proc := .reaped }, [.kill, .reap]) ∧
    OwnedChild.wait { pidSlot := true, proc := .running } =
      .returned ({ pidSlot := false, proc := .reaped }, [.kill, .reap]) ∧
    [ChildEvent.kill, ChildEvent.reap].count ChildEvent.reap = 1 :=
  owned_child_exactly_one_reap .running (by decide)

/-- C6: `ChildHandle::try_kill` returns success from every reachable
handle state — running, terminated-but-unreaped, reaped, or with the PID
slot already emptied by the owner's drop — and calling it again from the
state it leaves behind changes nothing and succeeds again, so any number
of calls from any interleaving succeed. -/
theorem child_handle_try_kill_idempotent (s : HandleState) :
    (ChildHandle.try_kill s).1 = .ok () ∧
    ChildHandle.try_kill (ChildHandle.try_kill s).2 = (.ok (), (ChildHandle.try_kill s).2) := by
  rcases s with ⟨slot, proc⟩
  cases slot <;> cases proc <;> exact ⟨rfl, rfl⟩

/-- C8: the cancellation flag is monotonic and `raise()` is idempotent:
`raise` always yields the set state, `was_set` reads `true` after it, no
sequence of operations ever resets a set flag, a `wait_with_timeout`
called with the flag already set wakes immediately (zero blocking, not
timed out), an untimed `wait()` with the flag already set wakes
immediately, a thread blocked in the untimed `wait()` with the flag unset
is woken at the moment `raise` is called, and a waiter blocked in
`wait_with_timeout` with the flag unset is woken at the raise. -/
theorem flag_monotonic_raise_idempotent :
    (∀ s, Flag.raise s = true) ∧
    (∀ s, Flag.raise (Flag.raise s) = Flag.raise s) ∧
    (∀ s, Flag.was_set (Flag.raise s) = true) ∧
    (∀ ops : List Flag.Op, Flag.applyOps true ops = true) ∧
    (∀ (d : ℚ) (r : Option ℚ), Flag.wait_with_timeout true d r = (0, false)) ∧
    (∀ r : Option ℚ, Flag.wait true r = some 0) ∧
    (∀ t : ℚ, Flag.wait false (some t) = some t) ∧
    (∀ d t : ℚ, t ≤ d → Flag.wait_with_timeout false d (some t) = (t, false)) := by
  refine ⟨fun _ => rfl, fun _ => rfl, fun _ => rfl, ?_, fun _ _ => rfl,
    fun _ => rfl, fun _ => rfl, ?_⟩
  · intro ops
    induction ops with
    | nil => rfl
    | cons op rest ih =>
      cases op <;> simpa [Flag.applyOps, Flag.step, Flag.raise] using ih
  · intro d t h
    simp [Flag.wait_with_timeout, h]

/-- C8 (witness): the wakeup clauses evaluated at a raise 1 second into a
2-second timed wait and 3 seconds into an untimed `wait()`. -/
theorem flag_monotonic_raise_idempotent_witness :
    Flag.wait_with_timeout false 2 (some 1) = (1, false) ∧
    Flag.wait false (some 3) = some 3 :=
  ⟨flag_monotonic_raise_idempotent.2.2.2.2.2.2.2 2 1 (by decide),
   flag_monotonic_raise_idempotent.2.2.2.2.2.2.1 3⟩

/-- C9: every registered watchdog job gets the deadline
`now + timeout_duration` with one fixed `timeout_duration`, so along any
FIFO queue of jobs — whose registration instants are non-decreasing in
queue order — the deadlines are non-decreasing as well. -/
theorem watchdog_fifo_deadlines_monotone (timeout_duration : ℚ) (times : List ℚ)
    (h : times.Chain' (· ≤ ·)) :
    (Watchdog.queueDeadlines times timeout_duration).Chain' (· ≤ ·) := by
  unfold Watchdog.queueDeadlines
  rw [List.chain'_map]
  exact List.Chain'.imp
    (fun a b hab => by unfold Watchdog.add_handle_deadline; linarith) h

/-- C9 (witness): the deadline monotonicity evaluated on the concrete
registration times 0, 1, 5 with timeout 2. -/
theorem watchdog_fifo_deadlines_monotone_witness :
    (Watchdog.queueDeadlines [0, 1, 5] 2).Chain' (· ≤ ·) :=
  watchdog_fifo_deadlines_monotone 2 [0, 1, 5] (by simp [List.chain'_cons])

end Toster
